import Mathlib

/-!
Shallow embedding of the wbdata fetch/cache/date pipeline
(`wbdata/fetcher.py`, `wbdata/dates.py`, `wbdata/cache.py`).

Python machine-level conventions used throughout:
* dictionaries are association lists in insertion order with distinct keys;
  assignment `d[k] = v` updates the existing entry in place or appends;
* exceptions are modelled by `Except PyErr` / `Option`;
* Python `int` is `Int`; `datetime.datetime` is the `PyDate` record below.
-/

/-- Python exception kinds relevant to the embedded code paths. -/
inductive PyErr
  | indexError
  | keyError
  | typeError
  | valueError
  | attributeError
  deriving DecidableEq, Repr

/-- Parameter / row values: the value kinds that actually flow through the
fetcher (strings, ints, and `None`). -/
inductive Val
  | str (s : String)
  | int (n : Int)
  | nullv
  deriving DecidableEq, Repr

/-- Association-list lookup, the embedding of `d[k]` / `k in d` on a Python
dict (keys are distinct, insertion order preserved). -/
def alistGet {κ α : Type} [DecidableEq κ] : List (κ × α) → κ → Option α
  | [], _ => none
  | (k, v) :: rest, key => if k = key then some v else alistGet rest key

/-- Association-list update, the embedding of `d[k] = v` on a Python dict:
replace in place when the key exists, append otherwise. -/
def alistSet {κ α : Type} [DecidableEq κ] : List (κ × α) → κ → α → List (κ × α)
  | [], key, val => [(key, val)]
  | (k, v) :: rest, key, val =>
    if k = key then (key, val) :: rest else (k, v) :: alistSet rest key val

/-- A GET-parameter dictionary (`params` in `fetcher.py`). -/
abbrev Params : Type := List (String × Val)

/-- One API record: a mapping from field names to values (`types.Row`). -/
abbrev Row : Type := List (String × Val)

/-- Python `str.strip()`: drop leading and trailing whitespace. -/
def pyStrip (s : String) : String :=
  String.mk (((s.toList.dropWhile Char.isWhitespace).reverse.dropWhile
    Char.isWhitespace).reverse)

/-- Embedding of `fetcher._strip_id` (fetcher.py lines 22-24): with KeyError
suppressed, replace the row's `id` value by its stripped form.  A present but
non-string `id` raises AttributeError (`.strip` on a non-string), which
`contextlib.suppress(KeyError)` does not catch; that is the `none` case. -/
def stripId (row : Row) : Option Row :=
  match alistGet row "id" with
  | none => some row
  | some (Val.str s) => some (alistSet row "id" (Val.str (pyStrip s)))
  | some _ => none

/-- The `for row in rows: _strip_id(row)` pass of `Fetcher.fetch`
(fetcher.py lines 135-136), applied to the aggregated row list. -/
def stripRows : List Row → Option (List Row)
  | [] => some []
  | r :: rest =>
    match stripId r with
    | none => none
    | some r2 =>
      match stripRows rest with
      | none => none
      | some rest2 => some (r2 :: rest2)

/-- Split a character list at every occurrence of `c`; embedding of Python
`str.split(sep)` for a one-character separator (empty pieces preserved). -/
def splitOnChar (c : Char) : List Char → List (List Char)
  | [] => [[]]
  | x :: xs =>
    let r := splitOnChar c xs
    if x = c then [] :: r
    else
      match r with
      | y :: ys => (x :: y) :: ys
      | [] => [[x]]

/-- Numeric value of a digit list, most significant first. -/
def natOfDigits : List Char → Nat
  | [] => 0
  | d :: rest => natOfDigits rest + d.toNat.sub 48 * 10 ^ rest.length

/-- Embedding of Python `int(s)` on a string: optional surrounding whitespace,
optional sign, then a nonempty run of digits; anything else raises ValueError
(`none`). -/
def pyIntOfString (s : String) : Option Int :=
  let t := (pyStrip s).toList
  let core : Int × List Char :=
    match t with
    | '+' :: rest => (1, rest)
    | '-' :: rest => (-1, rest)
    | l => (1, l)
  if core.2 ≠ [] ∧ core.2.all Char.isDigit then
    some (core.1 * (natOfDigits core.2 : Int))
  else none

/-- `int(s)` as an exception-typed computation. -/
def pyIntE (s : String) : Except PyErr Int :=
  match pyIntOfString s with
  | some n => Except.ok n
  | none => Except.error PyErr.valueError

/-- Gregorian leap-year rule, as used by Python `datetime`. -/
def isLeap (y : Nat) : Bool :=
  y % 4 = 0 && (y % 100 ≠ 0 || y % 400 = 0)

/-- Number of days in a month, as validated by the `datetime` constructor. -/
def daysInMonth (y m : Nat) : Nat :=
  if m = 2 then (if isLeap y then 29 else 28)
  else if m = 4 ∨ m = 6 ∨ m = 9 ∨ m = 11 then 30
  else 31

/-- A Python `datetime.datetime` restricted to its date fields (the embedded
code never sets or reads time-of-day fields; they are always midnight). -/
structure PyDate where
  year : Nat
  month : Nat
  day : Nat
  deriving DecidableEq, Repr

/-- Embedding of the `datetime.datetime(y, m, d)` constructor: validates
`MINYEAR <= y <= MAXYEAR`, `1 <= m <= 12`, and `d` against the month length,
raising ValueError otherwise. -/
def mkDatetime (y m d : Int) : Except PyErr PyDate :=
  if 1 ≤ y ∧ y ≤ 9999 ∧ 1 ≤ m ∧ m ≤ 12 ∧ 1 ≤ d ∧ d ≤ daysInMonth y.toNat m.toNat
  then Except.ok ⟨y.toNat, m.toNat, d.toNat⟩
  else Except.error PyErr.valueError

/-- Embedding of `datetime.strptime(s, "%Y-%m-%d")` (used for `lastupdated`):
exactly four year digits, one or two month and day digits separated by
literal hyphens, the whole string consumed, ranges validated. -/
def pyStrptimeYmd (s : String) : Option PyDate :=
  match splitOnChar '-' s.toList with
  | [ys, ms, ds] =>
    if ys.length = 4 ∧ ys.all Char.isDigit ∧
       1 ≤ ms.length ∧ ms.length ≤ 2 ∧ ms.all Char.isDigit ∧
       1 ≤ ds.length ∧ ds.length ≤ 2 ∧ ds.all Char.isDigit then
      let y := natOfDigits ys
      let m := natOfDigits ms
      let d := natOfDigits ds
      if 1 ≤ y ∧ 1 ≤ m ∧ m ≤ 12 ∧ 1 ≤ d ∧ d ≤ daysInMonth y m then
        some ⟨y, m, d⟩
      else none
    else none
  | _ => none

/-! ### dates.py -/

/-- Truthiness of `PATTERN_YEAR.match(s)` (dates.py line 9): `re.match` is
anchored at the start only, so it succeeds whenever the first four characters
are digits, regardless of what follows. -/
def patternYearMatch (s : String) : Bool :=
  match s.toList with
  | a :: b :: c :: d :: _ => a.isDigit && b.isDigit && c.isDigit && d.isDigit
  | _ => false

/-- Truthiness of `PATTERN_MONTH.match(s)` (dates.py line 10): four digits,
the letter `M`, then at least one digit, as a prefix of `s`. -/
def patternMonthMatch (s : String) : Bool :=
  match s.toList with
  | a :: b :: c :: d :: 'M' :: e :: _ =>
    a.isDigit && b.isDigit && c.isDigit && d.isDigit && e.isDigit
  | _ => false

/-- Truthiness of `PATTERN_QUARTER.match(s)` (dates.py line 11): four digits,
the letter `Q`, then at least one digit, as a prefix of `s`. -/
def patternQuarterMatch (s : String) : Bool :=
  match s.toList with
  | a :: b :: c :: d :: 'Q' :: e :: _ =>
    a.isDigit && b.isDigit && c.isDigit && d.isDigit && e.isDigit
  | _ => false

/-- Embedding of `dates.convert_year_to_datetime`:
`datetime.strptime(datestr, "%Y")` requires the whole string to be exactly
four digits (CPython's `%Y` pattern) and a valid year, else ValueError. -/
def convert_year_to_datetime (s : String) : Except PyErr PyDate :=
  match s.toList with
  | [a, b, c, d] =>
    if a.isDigit && b.isDigit && c.isDigit && d.isDigit then
      mkDatetime (natOfDigits [a, b, c, d] : Int) 1 1
    else Except.error PyErr.valueError
  | _ => Except.error PyErr.valueError

/-- Embedding of `dates.convert_month_to_datetime`: split on `"M"`, then
`datetime(int(split[0]), int(split[1]), 1)`, with the source's evaluation
order (`int(split[0])` first, then the `split[1]` index access). -/
def convert_month_to_datetime (s : String) : Except PyErr PyDate := do
  let parts := splitOnChar 'M' s.toList
  let y ← pyIntE (String.mk (parts.getD 0 []))
  let s1 ← match parts.get? 1 with
           | some p => Except.ok p
           | none => Except.error PyErr.indexError
  let m ← pyIntE (String.mk s1)
  mkDatetime y m 1

/-- Embedding of `dates.convert_quarter_to_datetime`: split on `"Q"`,
`quarter = int(split[1])`, `month = quarter * 3 - 2`,
`datetime(int(split[0]), month, 1)` (the source computes `quarter` before
`int(split[0])`, matching the statement order). -/
def convert_quarter_to_datetime (s : String) : Except PyErr PyDate := do
  let parts := splitOnChar 'Q' s.toList
  let s1 ← match parts.get? 1 with
           | some p => Except.ok p
           | none => Except.error PyErr.indexError
  let quarter ← pyIntE (String.mk s1)
  let month := quarter * 3 - 2
  let y ← pyIntE (String.mk (parts.getD 0 []))
  mkDatetime y month 1

/-- Render a year the way glibc `strftime("%Y")` does for the years
`datetime` admits (no padding below four digits on this platform). -/
def strftimeY (y : Nat) : String := toString y

/-- Two-digit zero-padded rendering, for `strftime("%m")`. -/
def pad2 (n : Nat) : String :=
  if n < 10 then "0" ++ toString n else toString n

/-- Embedding of `dates.data_date_to_str` (dates.py lines 54-69). -/
def data_date_to_str (d : PyDate) (freq : String) : Except PyErr String :=
  if freq = "Y" then Except.ok (strftimeY d.year)
  else if freq = "M" then Except.ok (strftimeY d.year ++ "M" ++ pad2 d.month)
  else if freq = "Q" then
    Except.ok (toString d.year ++ "Q" ++ toString ((d.month - 1) / 3 + 1))
  else Except.error PyErr.valueError

/-- Embedding of `dates.parse_single_date` (dates.py lines 72-84) on string
input, with the source's branch order: the unanchored year pattern is tried
first, then month, then quarter, then the third-party `dateparser.parse`
fallback (passed in as `fallback`, since it is library code outside this
repository); a fallback miss raises ValueError. -/
def parse_single_date (fallback : String → Option PyDate) (s : String) :
    Except PyErr PyDate :=
  if patternYearMatch s then convert_year_to_datetime s
  else if patternMonthMatch s then convert_month_to_datetime s
  else if patternQuarterMatch s then convert_quarter_to_datetime s
  else
    match fallback s with
    | some d => Except.ok d
    | none => Except.error PyErr.valueError

/-! ### fetcher.py: response parsing -/

/-- A JSON value, the result of `json.loads`. -/
inductive J
  | null
  | jstr (s : String)
  | jnum (n : Int)
  | jarr (xs : List J)
  | jobj (kvs : List (String × J))

/-- Indexing a Python tuple or list with a non-negative int:
IndexError when out of range. -/
def tupleIdx (xs : List J) (i : Nat) : Except PyErr J :=
  match xs.get? i with
  | some x => Except.ok x
  | none => Except.error PyErr.indexError

/-- Embedding of `v[key]` for a string `key` on a JSON value: dict lookup
(KeyError when absent); on a string, list, number or `None` the subscript
raises TypeError. -/
def getField (v : J) (key : String) : Except PyErr J :=
  match v with
  | J.jobj kvs =>
    match alistGet kvs key with
    | some x => Except.ok x
    | none => Except.error PyErr.keyError
  | _ => Except.error PyErr.typeError

/-- Embedding of `v[i]` for int index `i` on a JSON value: list indexing
(IndexError out of range); a string yields its one-character slice; a dict
raises KeyError (JSON object keys are strings, so an int key is absent);
numbers and `None` raise TypeError. -/
def getElem0 (v : J) (i : Nat) : Except PyErr J :=
  match v with
  | J.jarr xs => tupleIdx xs i
  | J.jstr s =>
    match s.toList.get? i with
    | some c => Except.ok (J.jstr (String.mk [c]))
    | none => Except.error PyErr.indexError
  | J.jobj _ => Except.error PyErr.keyError
  | _ => Except.error PyErr.typeError

/-- Embedding of `v.get(key)` on a JSON value: only a dict has the `get`
method (returning `None` as `none` when absent); anything else raises
AttributeError. -/
def dictGetMethod (v : J) (key : String) : Except PyErr (Option J) :=
  match v with
  | J.jobj kvs => Except.ok (alistGet kvs key)
  | _ => Except.error PyErr.attributeError

/-- Embedding of Python `int(v)` on a JSON value: ints pass through, strings
are parsed (ValueError on failure), and lists, dicts and `None` raise
TypeError. -/
def toIntJ (v : J) : Except PyErr Int :=
  match v with
  | J.jnum n => Except.ok n
  | J.jstr s => pyIntE s
  | _ => Except.error PyErr.typeError

/-- The record built by `fetcher._parse_response` on success, with the row
element kept as the raw JSON value the source stores unchecked. -/
structure ParsedResponseJ where
  rows : J
  page : Int
  pages : Int
  lastUpdated : Option J

/-- The `try` body of `_parse_response` (fetcher.py lines 39-44), with the
source's evaluation order: `rows=response[1]` first, then
`int(response[0]["page"])`, `int(response[0]["pages"])`, and finally
`response[0].get("lastupdated")`. -/
def tryParse (response : List J) : Except PyErr ParsedResponseJ :=
  match tupleIdx response 1 with
  | Except.error e => Except.error e
  | Except.ok rows =>
    match tupleIdx response 0 with
    | Except.error e => Except.error e
    | Except.ok meta =>
      match getField meta "page" with
      | Except.error e => Except.error e
      | Except.ok pageV =>
        match toIntJ pageV with
        | Except.error e => Except.error e
        | Except.ok page =>
          match getField meta "pages" with
          | Except.error e => Except.error e
          | Except.ok pagesV =>
            match toIntJ pagesV with
            | Except.error e => Except.error e
            | Except.ok pages =>
              match dictGetMethod meta "lastupdated" with
              | Except.error e => Except.error e
              | Except.ok lastUpdated => Except.ok ⟨rows, page, pages, lastUpdated⟩

/-- The error-envelope extraction `response[0]["message"][0]` with its
`id`/`key`/`value` field accesses (fetcher.py lines 47-49), in the source's
evaluation order. -/
def tryMessage (response : List J) : Except PyErr (J × J × J) :=
  match tupleIdx response 0 with
  | Except.error e => Except.error e
  | Except.ok meta =>
    match getField meta "message" with
    | Except.error e => Except.error e
    | Except.ok msg =>
      match getElem0 msg 0 with
      | Except.error e => Except.error e
      | Except.ok m0 =>
        match getField m0 "id" with
        | Except.error e => Except.error e
        | Except.ok vid =>
          match getField m0 "key" with
          | Except.error e => Except.error e
          | Except.ok vkey =>
            match getField m0 "value" with
            | Except.error e => Except.error e
            | Except.ok vval => Except.ok (vid, vkey, vval)

/-- The exceptions `_parse_response` can surface: the two deliberately raised
RuntimeErrors (the API-error message with the envelope's `id`/`key`/`value`
embedded, and the malformed-response message embedding the raw payload) and
any Python exception that escapes both `except (IndexError, KeyError)`
clauses unconverted. -/
inductive FetchError
  | apiError (id key value : J)
  | malformed (raw : List J)
  | uncaught (e : PyErr)

/-- Embedding of `fetcher._parse_response` (fetcher.py lines 37-54): the
outer `except (IndexError, KeyError)` guards the success path; inside it the
error-envelope read is itself guarded by a second
`except (IndexError, KeyError)`; any other exception kind propagates. -/
def parseResponse (response : List J) : Except FetchError ParsedResponseJ :=
  match tryParse response with
  | Except.ok pr => Except.ok pr
  | Except.error e =>
    if e = PyErr.indexError ∨ e = PyErr.keyError then
      match tryMessage response with
      | Except.ok (i, k, v) => Except.error (FetchError.apiError i k v)
      | Except.error e2 =>
        if e2 = PyErr.indexError ∨ e2 = PyErr.keyError then
          Except.error (FetchError.malformed response)
        else Except.error (FetchError.uncaught e2)
    else Except.error (FetchError.uncaught e)

/-! ### fetcher.py: cache key and single-page fetch -/

/-- Parameter pairs ordered by name.  The source sorts `params.items()`
lexicographically as tuples; since dict keys are distinct, the comparison
never reaches the second component, so sorting by key is the exact
behaviour. -/
def sortParams (l : List (String × Val)) : List (String × Val) :=
  List.insertionSort (fun a b => a.1 ≤ b.1) l

/-- The cache key `(url, tuple(sorted(params.items())))` computed by
`Fetcher._get_response` (fetcher.py line 97). -/
def cacheKey (url : String) (params : List (String × Val)) :
    String × List (String × Val) :=
  (url, sortParams params)

/-- The cache store: a mapping from cache keys to raw response bodies. -/
abbrev Cache : Type := List ((String × List (String × Val)) × String)

/-- Result of one `Fetcher._get_response` cache interaction: the body that
will be parsed, the cache store afterwards, and whether the network was
queried. -/
structure GetResponseStep where
  body : String
  cache : Cache
  networkCalled : Bool

/-- Embedding of the cache logic of `Fetcher._get_response` (fetcher.py
lines 97-102): compute the key; if `skip_cache` is false and the key is
present, use the cached body without a network call; otherwise fetch
`netBody` from the network and store it under the key.  The body is then
parsed by `parseResponse` (modelled separately); the JSON decode itself
carries no logic of this repository. -/
def getResponseStep (cache : Cache) (url : String) (params : List (String × Val))
    (netBody : String) (skipCache : Bool) : GetResponseStep :=
  let key := cacheKey url params
  match if skipCache then none else alistGet cache key with
  | some body => ⟨body, cache, false⟩
  | none => ⟨netBody, alistSet cache key netBody, true⟩

/-! ### fetcher.py: retry on connect timeout -/

/-- Network exception kinds: `requests.exceptions.ConnectTimeout` versus
everything else. -/
inductive NetErr
  | connectTimeout
  | other (name : String)
  deriving DecidableEq, Repr

/-- Outcome of one attempted GET in `Fetcher._get_response_body`. -/
inductive NetOutcome
  | ok (body : String)
  | exn (e : NetErr)
  deriving DecidableEq, Repr

/-- Whether the exception matches `backoff.on_exception`'s `exception=`
argument, which the source sets to `ConnectTimeout` (fetcher.py line 67). -/
def isConnectTimeout : NetErr → Bool
  | NetErr.connectTimeout => true
  | NetErr.other _ => false

/-- Modelled from the spec: the third-party `backoff.on_exception` decorator
with `wait_gen=backoff.expo` retries the wrapped call while the raised
exception matches, sleeping `2 ^ k` seconds before the `k`-th retry, until
`max_tries` total attempts have been made, then re-raises; a non-matching
exception propagates immediately.  `attempt i` is the outcome of the `i`-th
call (0-based); the result carries the outcome, the number of attempts made,
and the backoff waits slept. -/
def backoffRun (isMatch : NetErr → Bool) (attempt : Nat → NetOutcome) :
    Nat → Nat → Except NetErr String × Nat × List Nat
  | 0, _ => (Except.error NetErr.connectTimeout, 0, [])
  | 1, i =>
    match attempt i with
    | NetOutcome.ok body => (Except.ok body, i + 1, [])
    | NetOutcome.exn e => (Except.error e, i + 1, [])
  | t + 2, i =>
    match attempt i with
    | NetOutcome.ok body => (Except.ok body, i + 1, [])
    | NetOutcome.exn e =>
      if isMatch e then
        let r := backoffRun isMatch attempt (t + 1) (i + 1)
        (r.1, r.2.1, 2 ^ i :: r.2.2)
      else (Except.error e, i + 1, [])

/-- `TRIES` (fetcher.py line 19). -/
def TRIES : Nat := 3

/-- `PER_PAGE` (fetcher.py line 18). -/
def PER_PAGE : Int := 1000

/-- Embedding of `Fetcher._get_response_body` (fetcher.py lines 65-82): the
GET call wrapped in `backoff.on_exception(backoff.expo,
requests.exceptions.ConnectTimeout, max_tries=TRIES)`. -/
def getResponseBodyRetry (attempt : Nat → NetOutcome) :
    Except NetErr String × Nat × List Nat :=
  backoffRun isConnectTimeout attempt TRIES 0

/-! ### fetcher.py: the pagination loop -/

/-- One parsed page as consumed by the pagination loop of `Fetcher.fetch`:
the fields of `ParsedResponse` with the rows as genuine row mappings. -/
structure PageResponse where
  rows : List Row
  page : Int
  pages : Int
  lastUpdated : Option String
  deriving DecidableEq, Repr

/-- The `lastupdated` string of the final processed page: after the loop the
Python variable `response` holds the last response. -/
def lastLu : List PageResponse → Option String
  | [] => none
  | [r] => r.lastUpdated
  | _ :: r2 :: rest => lastLu (r2 :: rest)

/-- Whether a page's `lastupdated` metadata lets `fetch` return normally:
either absent or a string `strptime("%Y-%m-%d")` accepts (otherwise the
final `strptime` call raises). -/
def luOk (o : Option String) : Bool :=
  match o with
  | none => true
  | some s => (pyStrptimeYmd s).isSome

/-- Aggregated result of `Fetcher.fetch`: the row list after id
normalization, the params dictionary as the loop leaves it, the number of
page requests made, and the parsed `lastupdated` date. -/
structure FetchOut where
  rows : List Row
  finalParams : List (String × Val)
  requests : Nat
  lastUpdated : Option PyDate
  deriving DecidableEq, Repr

/-- The `while pages != page` loop of `Fetcher.fetch` (fetcher.py lines
125-134).  Successive calls to `_get_response` are modelled by consuming the
`responses` list in order (exactly the spec's mocked-responses scenario); an
exhausted list means the next request has no defined response (`none`).
Each iteration appends the page's rows, updates `page`/`pages`, and sets
`params["page"] = page + 1`; the loop exits when the response's page equals
its pages. -/
def fetchLoop : List PageResponse → List (String × Val) → List Row →
    Option (List Row × List (String × Val) × Nat × Option String)
  | [], _, _ => none
  | r :: rest, params, acc =>
    let acc2 := acc ++ r.rows
    let params2 := alistSet params "page" (Val.int (r.page + 1))
    if r.page = r.pages then some (acc2, params2, 1, r.lastUpdated)
    else
      match fetchLoop rest params2 acc2 with
      | none => none
      | some (rows, p, n, lu) => some (rows, p, n + 1, lu)

/-- Embedding of `Fetcher.fetch` (fetcher.py lines 105-139) over a sequence
of page responses: set `params["format"] = "json"` and
`params["per_page"] = PER_PAGE`, run the pagination loop, strip every row's
`id`, then parse the final page's `lastupdated` with
`strptime("%Y-%m-%d")` (`None` passes through). -/
def fetch (responses : List PageResponse) (params0 : List (String × Val)) :
    Option FetchOut :=
  let params1 := alistSet (alistSet params0 "format" (Val.str "json"))
    "per_page" (Val.int PER_PAGE)
  match fetchLoop responses params1 [] with
  | none => none
  | some (rows, p, n, lu) =>
    match stripRows rows with
    | none => none
    | some rows2 =>
      match lu with
      | none => some ⟨rows2, p, n, none⟩
      | some s =>
        match pyStrptimeYmd s with
        | none => none
        | some d => some ⟨rows2, p, n, some d⟩

/-- The caller's params dictionary after `fetch` returns.  The source's
`params = params or {}` (fetcher.py line 120) rebinds the local name to a
fresh dict whenever the caller's dict is falsy (empty), so only a non-empty
caller dict is the object the loop mutates in place. -/
def fetchCallerParamsAfter (responses : List PageResponse)
    (callerParams : List (String × Val)) : Option (List (String × Val)) :=
  match fetch responses callerParams with
  | none => none
  | some out => some (if callerParams = [] then callerParams else out.finalParams)

/-! ### cache.py: environment configuration -/

/-- Embedding of the `TTL_DAYS` module initialization (cache.py lines
15-19): `int(os.getenv("WBDATA_CACHE_TTL_DAYS", "7"))`, with a ValueError
caught, a warning logged (the boolean), and the value defaulted to 7. -/
def ttlDaysInit (env : Option String) : Int × Bool :=
  match pyIntOfString (env.getD "7") with
  | some v => (v, false)
  | none => (7, true)

/-- Embedding of the `MAX_SIZE` module initialization (cache.py lines
21-25): `int(os.getenv("WBDATA_CACHE_MAX_SIZE", "100"))`, with a ValueError
caught, a warning logged claiming a default of 100 — and the value then set
to 7 by the source's fallback assignment `MAX_SIZE = 7` (cache.py line
25). -/
def maxSizeInit (env : Option String) : Int × Bool :=
  match pyIntOfString (env.getD "100") with
  | some v => (v, false)
  | none => (7, true)

/-! ## Helper lemmas -/

theorem alistGet_alistSet_self {κ α : Type} [DecidableEq κ]
    (d : List (κ × α)) (k : κ) (v : α) : alistGet (alistSet d k v) k = some v := by
  induction d with
  | nil => simp [alistGet, alistSet]
  | cons p rest ih =>
    obtain ⟨k2, v2⟩ := p
    by_cases h : k2 = k
    · subst h
      simp [alistGet, alistSet]
    · simp [alistGet, alistSet, h, ih]

theorem alistGet_alistSet_ne {κ α : Type} [DecidableEq κ]
    (d : List (κ × α)) (k key : κ) (v : α) (h : k ≠ key) :
    alistGet (alistSet d k v) key = alistGet d key := by
  induction d with
  | nil => simp [alistGet, alistSet, h]
  | cons p rest ih =>
    obtain ⟨k2, v2⟩ := p
    by_cases h2 : k2 = k
    · subst h2
      simp [alistGet, alistSet, h]
    · simp [alistGet, alistSet, h2, ih]

theorem stripRows_append {l1 l2 r1 r2 : List Row}
    (h1 : stripRows l1 = some r1) (h2 : stripRows l2 = some r2) :
    stripRows (l1 ++ l2) = some (r1 ++ r2) := by
  induction l1 generalizing r1 with
  | nil =>
    simp [stripRows] at h1
    simp [h1, h2]
  | cons r rest ih =>
    simp only [stripRows] at h1
    match hs : stripId r with
    | none => simp [hs] at h1
    | some rr =>
      simp only [hs] at h1
      match ht : stripRows rest with
      | none => simp [ht] at h1
      | some restr =>
        simp only [ht, Option.some.injEq] at h1
        subst h1
        simp only [List.cons_append, stripRows, hs, List.append_eq]
        rw [ih ht]

theorem stripRows_flatten_id {ls : List (List Row)}
    (h : ∀ l ∈ ls, stripRows l = some l) :
    stripRows ls.flatten = some ls.flatten := by
  induction ls with
  | nil => simp [stripRows]
  | cons l rest ih =>
    have h1 : stripRows l = some l := h l (by simp)
    have h2 : stripRows rest.flatten = some rest.flatten :=
      ih (fun l2 hl2 => h l2 (by simp [hl2]))
    simpa using stripRows_append h1 h2

/-! ## C5: cache bypass and reuse -/

/-- C5: for every url and params, with `skip_cache` true the single-page
fetch queries the network even when the key is cached and overwrites the
entry with the fresh body; with `skip_cache` false and the key present, the
cached body is used and no network request is made. -/
theorem c5_cache_bypass (cache : Cache) (url : String) (params : Params)
    (netBody : String) :
    ((getResponseStep cache url params netBody true).networkCalled = true
      ∧ alistGet (getResponseStep cache url params netBody true).cache
          (cacheKey url params) = some netBody)
    ∧ (∀ b, alistGet cache (cacheKey url params) = some b →
        getResponseStep cache url params netBody false =
          ⟨b, cache, false⟩) := by
  constructor
  · constructor
    · simp [getResponseStep]
    · simp [getResponseStep, alistGet_alistSet_self]
  · intro b hb
    simp [getResponseStep, hb]

/-- C5 witness: a concrete cached entry is reused without a network call,
and a skip-cache fetch overwrites it. -/
theorem c5_cache_bypass_witness :
    getResponseStep [(("u", [("a", Val.str "b")]), "old")] "u"
        [("a", Val.str "b")] "new" false =
      ⟨"old", [(("u", [("a", Val.str "b")]), "old")], false⟩
    ∧ (getResponseStep [(("u", [("a", Val.str "b")]), "old")] "u"
        [("a", Val.str "b")] "new" true).networkCalled = true :=
  ⟨(c5_cache_bypass [(("u", [("a", Val.str "b")]), "old")] "u"
      [("a", Val.str "b")] "new").2 "old" (by decide),
   (c5_cache_bypass [(("u", [("a", Val.str "b")]), "old")] "u"
      [("a", Val.str "b")] "new").1.1⟩

/-! ## C6: retry policy of the page-body fetch -/

/-- C6: the GET wrapper retries only on connection timeouts, with
exponential backoff waits, up to 3 total attempts, then surfaces the
timeout; a non-timeout failure propagates immediately; a success returns at
once. -/
theorem c6_retry_policy (attempt : Nat → NetOutcome) :
    ((∀ i, i < TRIES → attempt i = NetOutcome.exn NetErr.connectTimeout) →
       getResponseBodyRetry attempt =
         (Except.error NetErr.connectTimeout, 3, [1, 2]))
    ∧ (∀ name, attempt 0 = NetOutcome.exn (NetErr.other name) →
       getResponseBodyRetry attempt = (Except.error (NetErr.other name), 1, []))
    ∧ (∀ name, attempt 0 = NetOutcome.exn NetErr.connectTimeout →
         attempt 1 = NetOutcome.exn (NetErr.other name) →
       getResponseBodyRetry attempt =
         (Except.error (NetErr.other name), 2, [1]))
    ∧ (∀ body, attempt 0 = NetOutcome.ok body →
       getResponseBodyRetry attempt = (Except.ok body, 1, [])) := by
  refine ⟨fun h => ?_, fun name h0 => ?_, fun name h0 h1 => ?_, fun body h0 => ?_⟩
  · have h0 := h 0 (by norm_num [TRIES])
    have h1 := h 1 (by norm_num [TRIES])
    have h2 := h 2 (by norm_num [TRIES])
    simp [getResponseBodyRetry, TRIES, backoffRun, h0, h1, h2, isConnectTimeout]
  · simp [getResponseBodyRetry, TRIES, backoffRun, h0, isConnectTimeout]
  · simp [getResponseBodyRetry, TRIES, backoffRun, h0, h1, isConnectTimeout]
  · simp [getResponseBodyRetry, TRIES, backoffRun, h0]

/-- C6 witness: three straight timeouts exhaust the 3 attempts with waits
1 and 2 seconds, and an immediate non-timeout failure makes one attempt. -/
theorem c6_retry_policy_witness :
    getResponseBodyRetry (fun _ => NetOutcome.exn NetErr.connectTimeout) =
      (Except.error NetErr.connectTimeout, 3, [1, 2])
    ∧ getResponseBodyRetry (fun _ => NetOutcome.exn (NetErr.other "SSLError")) =
      (Except.error (NetErr.other "SSLError"), 1, []) :=
  ⟨(c6_retry_policy (fun _ => NetOutcome.exn NetErr.connectTimeout)).1
      (fun _ _ => rfl),
   (c6_retry_policy (fun _ => NetOutcome.exn (NetErr.other "SSLError"))).2.1
      "SSLError" rfl⟩

/-! ## C7: malformed cache environment overrides -/

/-- C7, evaluated on the code: a malformed `WBDATA_CACHE_TTL_DAYS` degrades
with a warning to the default 7; a malformed `WBDATA_CACHE_MAX_SIZE`
degrades with a warning — but to 7, not to the stated and logged default of
100, because the fallback assignment at cache.py line 25 writes
`MAX_SIZE = 7`.  Unset variables yield the true defaults 7 and 100. -/
theorem c7_env_fallback_eval :
    ttlDaysInit (some "not-an-int") = (7, true)
    ∧ maxSizeInit (some "not-an-int") = (7, true)
    ∧ ttlDaysInit none = (7, false)
    ∧ maxSizeInit none = (100, false)
    ∧ (maxSizeInit (some "not-an-int")).1 ≠ 100 := by
  refine ⟨by decide, by decide, by decide, by decide, by decide⟩

/-! ## C2: date round-trip -/

/-- C2, evaluated on the code: `parse_single_date` tries the unanchored
four-digit year pattern first, so `"2020M03"` and `"2020Q2"` are handed to
`strptime("%Y")`, which raises ValueError on the unconverted suffix — the
month and quarter grammars do not round-trip but raise; only the plain year
grammar round-trips (`"2020"` does). -/
theorem c2_round_trip_eval :
    parse_single_date (fun _ => none) "2020M03" = Except.error PyErr.valueError
    ∧ parse_single_date (fun _ => none) "2020Q2" = Except.error PyErr.valueError
    ∧ parse_single_date (fun _ => none) "2020" = Except.ok ⟨2020, 1, 1⟩
    ∧ data_date_to_str ⟨2020, 1, 1⟩ "Y" = Except.ok "2020" := by
  refine ⟨rfl, rfl, rfl, rfl⟩

/-! ## C3: error envelope and malformed-response discrimination -/

/-- C3: a raw page whose metadata lacks the required page key (or whose row
element is absent) but carries a well-formed `message[0]` with `id`, `key`
and `value` fields raises the API-error with those three values embedded;
when the envelope interpretation itself fails with a missing key or index
(no `message` key, or an empty `message` array), the generic
malformed-response error embedding the raw payload is raised instead. -/
theorem c3_error_envelope :
    (∀ (meta : List (String × J)) (tail : List J) (m0kvs : List (String × J))
       (rest : List J) (vid vkey vval : J),
       (tail = [] ∨ alistGet meta "page" = none) →
       alistGet meta "message" = some (J.jarr (J.jobj m0kvs :: rest)) →
       alistGet m0kvs "id" = some vid →
       alistGet m0kvs "key" = some vkey →
       alistGet m0kvs "value" = some vval →
       parseResponse (J.jobj meta :: tail) =
         Except.error (FetchError.apiError vid vkey vval))
    ∧ (∀ (meta : List (String × J)) (tail : List J),
       (tail = [] ∨ alistGet meta "page" = none) →
       (alistGet meta "message" = none
         ∨ alistGet meta "message" = some (J.jarr [])) →
       parseResponse (J.jobj meta :: tail) =
         Except.error (FetchError.malformed (J.jobj meta :: tail))) := by
  have hfail : ∀ (meta : List (String × J)) (tail : List J),
      (tail = [] ∨ alistGet meta "page" = none) →
      (tryParse (J.jobj meta :: tail) = Except.error PyErr.indexError
        ∨ tryParse (J.jobj meta :: tail) = Except.error PyErr.keyError) := by
    intro meta tail h
    rcases h with h | h
    · subst h
      left
      simp [tryParse, tupleIdx]
    · match tail with
      | [] =>
        left
        simp [tryParse, tupleIdx]
      | t :: ts =>
        right
        simp [tryParse, tupleIdx, getField, h]
  constructor
  · intro meta tail m0kvs rest vid vkey vval h hmsg hid hkey hval
    have hmsgok : tryMessage (J.jobj meta :: tail) =
        Except.ok (vid, vkey, vval) := by
      simp [tryMessage, tupleIdx, getField, getElem0, hmsg, hid, hkey, hval]
    rcases hfail meta tail h with hf | hf <;>
      simp [parseResponse, hf, hmsgok]
  · intro meta tail h hmsg
    have hmsgbad : tryMessage (J.jobj meta :: tail) = Except.error PyErr.keyError
        ∨ tryMessage (J.jobj meta :: tail) = Except.error PyErr.indexError := by
      rcases hmsg with hm | hm
      · left
        simp [tryMessage, tupleIdx, getField, hm]
      · right
        simp [tryMessage, tupleIdx, getField, getElem0, hm]
    rcases hfail meta tail h with hf | hf <;>
      rcases hmsgbad with hm | hm <;>
        simp [parseResponse, hf, hm]

/-- C3 witness: the canonical invalid-value error envelope of the API
yields the API error carrying id 120, key and value; the same metadata
without a `message` key yields the malformed-response error with the raw
payload. -/
theorem c3_error_envelope_witness :
    parseResponse [J.jobj [("message", J.jarr [J.jobj
        [("id", J.jstr "120"), ("key", J.jstr "Invalid value"),
         ("value", J.jstr "The provided parameter value is not valid")]])]] =
      Except.error (FetchError.apiError (J.jstr "120") (J.jstr "Invalid value")
        (J.jstr "The provided parameter value is not valid"))
    ∧ parseResponse [J.jobj [("foo", J.null)]] =
      Except.error (FetchError.malformed [J.jobj [("foo", J.null)]]) :=
  ⟨c3_error_envelope.1 [("message", J.jarr [J.jobj
      [("id", J.jstr "120"), ("key", J.jstr "Invalid value"),
       ("value", J.jstr "The provided parameter value is not valid")]])]
      [] _ [] _ _ _ (Or.inl rfl) rfl rfl rfl rfl,
   c3_error_envelope.2 [("foo", J.null)] [] (Or.inl rfl) (Or.inl rfl)⟩

/-! ## C10: only IndexError and KeyError are converted -/

/-- C10: the response parser converts only IndexError and KeyError into its
two documented errors: a first-attempt failure of any other kind escapes
unconverted, as does any non-index/key failure of the envelope
interpretation; in particular for a decoded JSON object the tuple of its
keys puts a string at the metadata position and the field access escapes
with TypeError (shown for a two-key and a one-key object). -/
theorem c10_uncaught_errors :
    (∀ (response : List J) (e : PyErr), tryParse response = Except.error e →
       e ≠ PyErr.indexError → e ≠ PyErr.keyError →
       parseResponse response = Except.error (FetchError.uncaught e))
    ∧ (∀ (response : List J) (e e2 : PyErr), tryParse response = Except.error e →
       (e = PyErr.indexError ∨ e = PyErr.keyError) →
       tryMessage response = Except.error e2 →
       e2 ≠ PyErr.indexError → e2 ≠ PyErr.keyError →
       parseResponse response = Except.error (FetchError.uncaught e2))
    ∧ parseResponse [J.jstr "k1", J.jstr "k2"] =
        Except.error (FetchError.uncaught PyErr.typeError)
    ∧ parseResponse [J.jstr "k1"] =
        Except.error (FetchError.uncaught PyErr.typeError) := by
  refine ⟨fun response e h h1 h2 => ?_, fun response e e2 h he hm h1 h2 => ?_,
    rfl, rfl⟩
  · simp [parseResponse, h, h1, h2]
  · simp [parseResponse, h, he, hm, h1, h2]

/-- C10 witness: a metadata dict whose `page` value is a non-numeric string
makes `int()` raise ValueError, which the parser surfaces unconverted. -/
theorem c10_uncaught_errors_witness :
    parseResponse [J.jobj [("page", J.jstr "x")], J.jarr []] =
      Except.error (FetchError.uncaught PyErr.valueError) :=
  c10_uncaught_errors.1 [J.jobj [("page", J.jstr "x")], J.jarr []]
    PyErr.valueError rfl (by decide) (by decide)

/-! ## The pagination loop under the spec's mocked-pages scenario -/

theorem lastLu_mem (rs : List PageResponse) (h : rs ≠ []) :
    ∃ r, r ∈ rs ∧ lastLu rs = r.lastUpdated := by
  induction rs with
  | nil => exact absurd rfl h
  | cons r rest ih =>
    cases rest with
    | nil => exact ⟨r, by simp, rfl⟩
    | cons r2 rest2 =>
      obtain ⟨r3, hm, he⟩ := ih (by simp)
      exact ⟨r3, by simp [hm], by simpa [lastLu] using he⟩

theorem fetchLoop_run (rs : List PageResponse) :
    ∀ (k : Nat) (params : Params) (acc : List Row),
    rs ≠ [] →
    (∀ (i : Nat) (h : i < rs.length),
      (rs.get ⟨i, h⟩).page = (k : Int) + i + 1) →
    (∀ r ∈ rs, r.pages = (k : Int) + rs.length) →
    ∃ p', fetchLoop rs params acc =
        some (acc ++ (rs.map PageResponse.rows).flatten, p', rs.length, lastLu rs)
      ∧ alistGet p' "page" = some (Val.int ((k : Int) + rs.length + 1))
      ∧ ∀ key, key ≠ "page" → alistGet p' key = alistGet params key := by
  induction rs with
  | nil => exact fun k params acc hne _ _ => absurd rfl hne
  | cons r rest ih =>
    intro k params acc _ hpage hpages
    have hpage0 : r.page = (k : Int) + 1 := by
      have h0 := hpage 0 (by simp)
      simpa using h0
    cases rest with
    | nil =>
      have hpages0 : r.pages = (k : Int) + 1 := by
        have h0 := hpages r (by simp)
        simpa using h0
      refine ⟨alistSet params "page" (Val.int (r.page + 1)), ?_, ?_, ?_⟩
      · simp [fetchLoop, hpage0, hpages0, lastLu]
      · rw [alistGet_alistSet_self]
        have hv : r.page + 1 = (k : Int) + ([r] : List PageResponse).length + 1 := by
          rw [hpage0]
          simp only [List.length_singleton]
          push_cast
          ring
        rw [hv]
      · intro key hk
        exact alistGet_alistSet_ne _ _ _ _ (Ne.symm hk)
    | cons r2 rest2 =>
      have hpages0 : r.pages = (k : Int) + ((r2 :: rest2).length + 1 : Nat) := by
        have h0 := hpages r (by simp)
        rw [h0]
        simp only [List.length_cons]
      have hne2 : ¬ r.page = r.pages := by
        rw [hpage0, hpages0]
        simp only [List.length_cons]
        push_cast
        omega
      have hpage2 : ∀ (i : Nat) (h : i < (r2 :: rest2).length),
          ((r2 :: rest2).get ⟨i, h⟩).page = ((k + 1 : Nat) : Int) + i + 1 := by
        intro i h
        have h1 := hpage (i + 1) (by simpa using Nat.succ_lt_succ h)
        have h2 : (r :: r2 :: rest2).get ⟨i + 1, Nat.succ_lt_succ h⟩ =
            (r2 :: rest2).get ⟨i, h⟩ := rfl
        rw [h2] at h1
        rw [h1]
        push_cast
        ring
      have hpages2 : ∀ r3 ∈ (r2 :: rest2), r3.pages =
          ((k + 1 : Nat) : Int) + (r2 :: rest2).length := by
        intro r3 h3
        have h4 := hpages r3 (List.mem_cons_of_mem _ h3)
        rw [h4]
        simp only [List.length_cons]
        push_cast
        ring
      obtain ⟨p', heq, hpg, hpres⟩ :=
        ih (k + 1) (alistSet params "page" (Val.int (r.page + 1)))
          (acc ++ r.rows) (by simp) hpage2 hpages2
      refine ⟨p', ?_, ?_, ?_⟩
      · have hstep : fetchLoop (r :: r2 :: rest2) params acc =
            (if r.page = r.pages then
              some (acc ++ r.rows, alistSet params "page" (Val.int (r.page + 1)),
                1, r.lastUpdated)
             else
              match fetchLoop (r2 :: rest2)
                  (alistSet params "page" (Val.int (r.page + 1)))
                  (acc ++ r.rows) with
              | none => none
              | some (rows, p, n, lu) => some (rows, p, n + 1, lu)) := rfl
        rw [hstep, if_neg hne2, heq]
        simp [lastLu, List.append_assoc]
      · rw [hpg]
        have hv : ((k + 1 : Nat) : Int) + (r2 :: rest2).length + 1 =
            (k : Int) + (r :: r2 :: rest2).length + 1 := by
          simp only [List.length_cons]
          push_cast
          ring
        rw [hv]
      · intro key hk
        rw [hpres key hk, alistGet_alistSet_ne _ _ _ _ (Ne.symm hk)]

theorem fetch_run (responses : List PageResponse) (params0 : Params)
    (strippedRows : List Row)
    (hne : responses ≠ [])
    (hpage : ∀ (i : Nat) (h : i < responses.length),
      (responses.get ⟨i, h⟩).page = (i : Int) + 1)
    (hpages : ∀ r ∈ responses, r.pages = (responses.length : Int))
    (hlu : ∀ r ∈ responses, luOk r.lastUpdated = true)
    (hstrip : stripRows ((responses.map PageResponse.rows).flatten) =
      some strippedRows) :
    ∃ p' lu, fetch responses params0 =
        some ⟨strippedRows, p', responses.length, lu⟩
      ∧ alistGet p' "page" = some (Val.int ((responses.length : Int) + 1))
      ∧ alistGet p' "per_page" = some (Val.int 1000)
      ∧ alistGet p' "format" = some (Val.str "json") := by
  have hpage0 : ∀ (i : Nat) (h : i < responses.length),
      (responses.get ⟨i, h⟩).page = ((0 : Nat) : Int) + i + 1 := by
    intro i h
    rw [hpage i h]
    push_cast
    ring
  have hpages0 : ∀ r ∈ responses, r.pages = ((0 : Nat) : Int) + responses.length := by
    intro r hr
    rw [hpages r hr]
    push_cast
    ring
  obtain ⟨p', heq, hpg, hpres⟩ :=
    fetchLoop_run responses 0
      (alistSet (alistSet params0 "format" (Val.str "json")) "per_page"
        (Val.int PER_PAGE)) [] hne hpage0 hpages0
  have hppv : alistGet p' "per_page" = some (Val.int 1000) := by
    rw [hpres "per_page" (by decide), alistGet_alistSet_self]
    rfl
  have hfv : alistGet p' "format" = some (Val.str "json") := by
    rw [hpres "format" (by decide),
      alistGet_alistSet_ne _ _ _ _ (by decide),
      alistGet_alistSet_self]
  have hpgv : alistGet p' "page" = some (Val.int ((responses.length : Int) + 1)) := by
    rw [hpg]
    norm_num
  obtain ⟨rl, hmem, hlul⟩ := lastLu_mem responses hne
  have hluok : luOk rl.lastUpdated = true := hlu rl hmem
  match hcase : rl.lastUpdated with
  | none =>
    refine ⟨p', none, ?_, hpgv, hppv, hfv⟩
    simp only [fetch]
    rw [heq]
    simp only [List.nil_append]
    rw [hstrip, hlul, hcase]
  | some s =>
    rw [hcase] at hluok
    simp only [luOk, Option.isSome_iff_exists] at hluok
    obtain ⟨d, hd⟩ := hluok
    refine ⟨p', some d, ?_, hpgv, hppv, hfv⟩
    simp only [fetch]
    rw [heq]
    simp only [List.nil_append]
    rw [hstrip, hlul, hcase]
    simp [hd]

/-! ## C1: multi-page aggregation in order, one request per page -/

/-- C1: for responses reporting page 1..N with total N (well-formed
metadata, rows untouched by id normalization), `fetch` returns the
concatenation of the pages' rows in ascending page order after exactly N
requests, and the loop's exit condition page = pages holds exactly at the
last response — for N = 1 it terminates after exactly one request. -/
theorem c1_pagination (responses : List PageResponse) (params0 : Params)
    (N : Nat) (hN : responses.length = N) (hne : responses ≠ [])
    (hpage : ∀ (i : Nat) (h : i < responses.length),
      (responses.get ⟨i, h⟩).page = (i : Int) + 1)
    (hpages : ∀ r ∈ responses, r.pages = (N : Int))
    (hrows : ∀ r ∈ responses, stripRows r.rows = some r.rows)
    (hlu : ∀ r ∈ responses, luOk r.lastUpdated = true) :
    (∃ out, fetch responses params0 = some out
      ∧ out.rows = (responses.map PageResponse.rows).flatten
      ∧ out.requests = N)
    ∧ ∀ (i : Nat) (h : i < responses.length),
        ((responses.get ⟨i, h⟩).page = (responses.get ⟨i, h⟩).pages ↔
          i + 1 = N) := by
  subst hN
  have hstrip : stripRows ((responses.map PageResponse.rows).flatten) =
      some ((responses.map PageResponse.rows).flatten) := by
    apply stripRows_flatten_id
    intro l hl
    obtain ⟨r, hr, hrl⟩ := List.mem_map.mp hl
    rw [← hrl]
    exact hrows r hr
  obtain ⟨p', lu, heq, _, _, _⟩ :=
    fetch_run responses params0 _ hne hpage hpages hlu hstrip
  constructor
  · exact ⟨_, heq, rfl, rfl⟩
  · intro i h
    rw [hpage i h, hpages _ (List.get_mem _ _ _)]
    omega

/-- C1 witness: a two-page fetch aggregates both pages' rows in order with
exactly two requests, and a single-page fetch makes exactly one request. -/
theorem c1_pagination_witness :
    (∃ out, fetch [⟨[[("id", Val.str "USA")]], 1, 2, none⟩,
          ⟨[[("id", Val.str "GBR")]], 2, 2, none⟩] [] = some out
      ∧ out.rows = (([⟨[[("id", Val.str "USA")]], 1, 2, none⟩,
          ⟨[[("id", Val.str "GBR")]], 2, 2, none⟩] :
            List PageResponse).map PageResponse.rows).flatten
      ∧ out.requests = 2)
    ∧ (∃ out, fetch [⟨[[("name", Val.str "x")]], 1, 1, none⟩] [] = some out
      ∧ out.rows = (([⟨[[("name", Val.str "x")]], 1, 1, none⟩] :
            List PageResponse).map PageResponse.rows).flatten
      ∧ out.requests = 1) :=
  ⟨(c1_pagination [⟨[[("id", Val.str "USA")]], 1, 2, none⟩,
      ⟨[[("id", Val.str "GBR")]], 2, 2, none⟩] [] 2 rfl (by decide)
      (by decide) (by decide) (by decide) (by decide)).1,
   (c1_pagination [⟨[[("name", Val.str "x")]], 1, 1, none⟩] [] 1 rfl
      (by decide) (by decide) (by decide) (by decide) (by decide)).1⟩

/-! ## C8: id normalization after aggregation -/

/-- C8: after the pagination loop, `fetch` returns the aggregation of all
pages' rows passed once through the id-stripping pass; a row with no `id`
field is left unchanged, and a row with a string `id` gets exactly its
surrounding whitespace stripped. -/
theorem c8_id_normalization (responses : List PageResponse) (params0 : Params)
    (strippedRows : List Row) (hne : responses ≠ [])
    (hpage : ∀ (i : Nat) (h : i < responses.length),
      (responses.get ⟨i, h⟩).page = (i : Int) + 1)
    (hpages : ∀ r ∈ responses, r.pages = (responses.length : Int))
    (hlu : ∀ r ∈ responses, luOk r.lastUpdated = true)
    (hstrip : stripRows ((responses.map PageResponse.rows).flatten) =
      some strippedRows) :
    (∃ out, fetch responses params0 = some out ∧ out.rows = strippedRows)
    ∧ (∀ row : Row, alistGet row "id" = none → stripId row = some row)
    ∧ (∀ (row : Row) (s : String), alistGet row "id" = some (Val.str s) →
        stripId row = some (alistSet row "id" (Val.str (pyStrip s)))) := by
  refine ⟨?_, ?_, ?_⟩
  · obtain ⟨p', lu, heq, _, _, _⟩ :=
      fetch_run responses params0 strippedRows hne hpage hpages hlu hstrip
    exact ⟨_, heq, rfl⟩
  · intro row h
    simp [stripId, h]
  · intro row s h
    simp [stripId, h]

/-- C8 witness: a page with a whitespace-padded id and an id-less row comes
back with the id stripped and the other row untouched. -/
theorem c8_id_normalization_witness :
    ∃ out, fetch [⟨[[("id", Val.str "  USA ")], [("value", Val.int 3)]],
        1, 1, none⟩] [] = some out
      ∧ out.rows = [[("id", Val.str "USA")], [("value", Val.int 3)]] :=
  (c8_id_normalization [⟨[[("id", Val.str "  USA ")], [("value", Val.int 3)]],
      1, 1, none⟩] [] [[("id", Val.str "USA")], [("value", Val.int 3)]]
      (by decide) (by decide) (by decide) (by decide) (by decide)).1

/-! ## C9: mutation of the caller's params dictionary -/

/-- C9 counterexample: a caller-supplied empty dictionary is falsy, so
`params = params or {}` rebinds to a fresh dict; the fetch completes, yet
the caller's dictionary afterwards contains none of the entries
`format`, `per_page`, `page` the claim says it must contain. -/
theorem c9_empty_dict_counterexample :
    fetchCallerParamsAfter [⟨[], 1, 1, none⟩] [] = some []
    ∧ alistGet ([] : Params) "format" = none
    ∧ alistGet ([] : Params) "per_page" = none
    ∧ alistGet ([] : Params) "page" = none :=
  ⟨rfl, rfl, rfl, rfl⟩

/-- C9 as amended: when the caller-supplied dictionary is non-empty
(truthy), `fetch` mutates that same dictionary in place, and after it
returns the caller's dictionary contains `format = "json"`,
`per_page = 1000`, and `page` equal to the last processed page number plus
one. -/
theorem c9_params_mutation (responses : List PageResponse) (params0 : Params)
    (h0 : params0 ≠ []) (hne : responses ≠ [])
    (hpage : ∀ (i : Nat) (h : i < responses.length),
      (responses.get ⟨i, h⟩).page = (i : Int) + 1)
    (hpages : ∀ r ∈ responses, r.pages = (responses.length : Int))
    (hrows : ∀ r ∈ responses, stripRows r.rows = some r.rows)
    (hlu : ∀ r ∈ responses, luOk r.lastUpdated = true) :
    ∃ p, fetchCallerParamsAfter responses params0 = some p
      ∧ alistGet p "format" = some (Val.str "json")
      ∧ alistGet p "per_page" = some (Val.int 1000)
      ∧ alistGet p "page" = some (Val.int ((responses.length : Int) + 1)) := by
  have hstrip : stripRows ((responses.map PageResponse.rows).flatten) =
      some ((responses.map PageResponse.rows).flatten) := by
    apply stripRows_flatten_id
    intro l hl
    obtain ⟨r, hr, hrl⟩ := List.mem_map.mp hl
    rw [← hrl]
    exact hrows r hr
  obtain ⟨p', lu, heq, hpg, hpp, hf⟩ :=
    fetch_run responses params0 _ hne hpage hpages hlu hstrip
  refine ⟨p', ?_, hf, hpp, hpg⟩
  simp only [fetchCallerParamsAfter]
  rw [heq]
  simp [h0]

/-- C9 witness: a non-empty caller dictionary observed after a single-page
fetch contains format, per_page, and page = 2. -/
theorem c9_params_mutation_witness :
    ∃ p, fetchCallerParamsAfter [⟨[[("name", Val.str "x")]], 1, 1, none⟩]
        [("country", Val.str "USA")] = some p
      ∧ alistGet p "format" = some (Val.str "json")
      ∧ alistGet p "per_page" = some (Val.int 1000)
      ∧ alistGet p "page" = some (Val.int
          ((([⟨[[("name", Val.str "x")]], 1, 1, none⟩] :
            List PageResponse).length : Int) + 1)) :=
  c9_params_mutation [⟨[[("name", Val.str "x")]], 1, 1, none⟩]
    [("country", Val.str "USA")] (by decide) (by decide) (by decide)
    (by decide) (by decide) (by decide)

/-! ## C4: cache key is parameter-order independent -/

theorem pairwise_lt_of_sorted_le_nodup :
    ∀ (l : List (String × Val)),
    List.Sorted (fun a b : String × Val => a.1 ≤ b.1) l →
    (l.map Prod.fst).Nodup →
    List.Sorted (fun a b : String × Val => a.1 < b.1) l := by
  intro l hs hn
  induction l with
  | nil => exact List.sorted_nil
  | cons a tl ih =>
    rw [List.sorted_cons] at hs ⊢
    simp only [List.map_cons, List.nodup_cons] at hn
    refine ⟨?_, ih hs.2 hn.2⟩
    intro b hb
    refine lt_of_le_of_ne (hs.1 b hb) ?_
    intro hcontra
    exact hn.1 (hcontra ▸ List.mem_map_of_mem Prod.fst hb)

/-- C4: the cache key is the url paired with the parameter pairs sorted by
name; two invocations with the same url and the same parameter set, in any
insertion order, produce equal cache keys. -/
theorem c4_cache_key_order_independent (url : String)
    (p1 p2 : List (String × Val))
    (h1 : (p1.map Prod.fst).Nodup) (hperm : p1.Perm p2) :
    cacheKey url p1 = cacheKey url p2
    ∧ (cacheKey url p1).1 = url
    ∧ List.Sorted (fun a b : String × Val => a.1 ≤ b.1) (cacheKey url p1).2
    ∧ (cacheKey url p1).2.Perm p1 := by
  haveI htot : IsTotal (String × Val) (fun a b : String × Val => a.1 ≤ b.1) :=
    ⟨fun a b => le_total a.1 b.1⟩
  haveI htr : IsTrans (String × Val) (fun a b : String × Val => a.1 ≤ b.1) :=
    ⟨fun _ _ _ hab hbc => le_trans hab hbc⟩
  haveI hanti : IsAntisymm (String × Val) (fun a b : String × Val => a.1 < b.1) :=
    ⟨fun _ _ hab hba => absurd hba (lt_asymm hab)⟩
  have hq1 : (sortParams p1).Perm p1 := List.perm_insertionSort _ p1
  have hq2 : (sortParams p2).Perm p2 := List.perm_insertionSort _ p2
  have hs1 : List.Sorted (fun a b : String × Val => a.1 ≤ b.1) (sortParams p1) :=
    List.sorted_insertionSort _ p1
  have hs2 : List.Sorted (fun a b : String × Val => a.1 ≤ b.1) (sortParams p2) :=
    List.sorted_insertionSort _ p2
  have h2 : (p2.map Prod.fst).Nodup := ((hperm.map Prod.fst).nodup_iff).mp h1
  have hn1 : ((sortParams p1).map Prod.fst).Nodup :=
    ((hq1.map Prod.fst).nodup_iff).mpr h1
  have hn2 : ((sortParams p2).map Prod.fst).Nodup :=
    ((hq2.map Prod.fst).nodup_iff).mpr h2
  have hlt1 := pairwise_lt_of_sorted_le_nodup (sortParams p1) hs1 hn1
  have hlt2 := pairwise_lt_of_sorted_le_nodup (sortParams p2) hs2 hn2
  have hp12 : (sortParams p1).Perm (sortParams p2) :=
    (hq1.trans hperm).trans hq2.symm
  have heq : sortParams p1 = sortParams p2 :=
    List.eq_of_perm_of_sorted hp12 hlt1 hlt2
  exact ⟨by simp only [cacheKey, heq], rfl, hs1, hq1⟩

/-- C4 witness: the same two parameters in the two insertion orders give
the same key, sorted by name. -/
theorem c4_cache_key_witness :
    cacheKey "https://api.worldbank.org/v2/countries"
        [("per_page", Val.int 1000), ("format", Val.str "json")] =
      cacheKey "https://api.worldbank.org/v2/countries"
        [("format", Val.str "json"), ("per_page", Val.int 1000)]
    ∧ (cacheKey "https://api.worldbank.org/v2/countries"
        [("per_page", Val.int 1000), ("format", Val.str "json")]).2.Perm
        [("per_page", Val.int 1000), ("format", Val.str "json")] :=
  ⟨(c4_cache_key_order_independent "https://api.worldbank.org/v2/countries"
      [("per_page", Val.int 1000), ("format", Val.str "json")]
      [("format", Val.str "json"), ("per_page", Val.int 1000)]
      (by decide) (by decide)).1,
   (c4_cache_key_order_independent "https://api.worldbank.org/v2/countries"
      [("per_page", Val.int 1000), ("format", Val.str "json")]
      [("format", Val.str "json"), ("per_page", Val.int 1000)]
      (by decide) (by decide)).2.2.2⟩
